import Mathlib

/-!
Shallow embedding of the budget application core
(calculations, validators, state migration, reducer)
with proofs of the specified properties.

Monetary values are modelled as exact rationals (`ℚ`); JavaScript
`Math.round` is modelled as rounding half toward positive infinity.
Fields that JavaScript leaves possibly `undefined` are modelled with
`Option`; frequencies are restricted to the three enum values
`weekly / monthly / annual` (the form layer validates them upstream,
and every property below assumes valid frequencies).
-/

/-- The three expense frequencies (`EXPENSE_FREQUENCIES` in `models/constants.js`). -/
inductive Frequency where
  | weekly
  | monthly
  | annual
deriving DecidableEq, Repr

/-- Multipliers to an annual base (`FREQUENCY_MULTIPLIERS` in `utils/calculations.js`):
weekly = 52, monthly = 12, annual = 1. -/
def FREQUENCY_MULTIPLIERS : Frequency → ℚ
  | .weekly => 52
  | .monthly => 12
  | .annual => 1

/-- JavaScript `Math.round`: round half toward positive infinity. -/
def jsRound (x : ℚ) : ℤ := Int.floor (x + 1 / 2)

/-- `Math.round(x * 100) / 100` — round to 2 decimal places. -/
def round2 (x : ℚ) : ℚ := (jsRound (x * 100) : ℚ) / 100

/-- `Math.round(x * 1000) / 1000` — round to 3 decimal places. -/
def round3 (x : ℚ) : ℚ := (jsRound (x * 1000) : ℚ) / 1000

/-- JavaScript `a || b` for an optional numeric `a`:
`undefined`, `null` and `0` are falsy. -/
def jsOrQ (a : Option ℚ) (b : ℚ) : ℚ :=
  match a with
  | some v => if v = 0 then b else v
  | none => b

/-- JavaScript `a || b` where `a` is an optional string and `b` a string:
`undefined`, `null` and the empty string are falsy. -/
def jsOrStr (a : Option String) (b : String) : String :=
  match a with
  | some s => if s = "" then b else s
  | none => b

/-- JavaScript `a || b` for two optional strings. -/
def jsOrOptStr (a b : Option String) : Option String :=
  match a with
  | some s => if s = "" then b else some s
  | none => b

/-- A person (`Person` in `models/types.js`): `id`, `name`, annual `salary`, `color`.
All fields but `id` may be absent on partially-built objects. -/
structure Person where
  id : String
  name : Option String
  salary : Option ℚ
  color : Option String
deriving DecidableEq, Repr

/-- An expense: `id`, `name`, `amount`, `frequency`, `category`,
`assignedTo` (a person id or the shared sentinel `"commun"`),
`months` (informational subset of the year), `createdAt`. -/
structure Expense where
  id : String
  name : Option String
  amount : Option ℚ
  frequency : Frequency
  category : Option String
  assignedTo : Option String
  months : List String
  createdAt : ℕ
deriving DecidableEq, Repr

/-- `convertAmount(amount, fromFrequency, toFrequency)` from `utils/calculations.js`:
returns 0 when `amount` is falsy or non-positive, otherwise normalizes to an
annual amount and divides by the target multiplier. -/
def convertAmount (amount : Option ℚ) (fromFrequency toFrequency : Frequency) : ℚ :=
  match amount with
  | none => 0
  | some a =>
    if a ≤ 0 then 0
    else a * FREQUENCY_MULTIPLIERS fromFrequency / FREQUENCY_MULTIPLIERS toFrequency

/-- `getMonthlyAmount(amount, frequency)`. -/
def getMonthlyAmount (amount : Option ℚ) (frequency : Frequency) : ℚ :=
  convertAmount amount frequency .monthly

/-- `getAnnualAmount(amount, frequency)`. -/
def getAnnualAmount (amount : Option ℚ) (frequency : Frequency) : ℚ :=
  convertAmount amount frequency .annual

/-- A household budget summary (`BudgetSummary`). -/
structure BudgetSummary where
  totalExpenses : ℚ
  remainingBudget : ℚ
  budgetRatio : ℚ
  isPositive : Bool
deriving DecidableEq, Repr

/-- `calculateAnnualBudget(people, expenses)` from `utils/calculations.js`. -/
def calculateAnnualBudget (people : List Person) (expenses : List Expense) : BudgetSummary :=
  let totalAnnualSalary := people.foldl (fun total person => total + jsOrQ person.salary 0) 0
  let totalExpenses := expenses.foldl
    (fun total expense => total + getAnnualAmount expense.amount expense.frequency) 0
  let remainingBudget := totalAnnualSalary - totalExpenses
  let budgetRatio := if totalAnnualSalary = 0 then 0 else totalExpenses / totalAnnualSalary
  { totalExpenses := round2 totalExpenses
    remainingBudget := round2 remainingBudget
    budgetRatio := round3 budgetRatio
    isPositive := decide (0 ≤ remainingBudget) }

/-- `calculateMonthlyBudget(people, expenses)` from `utils/calculations.js`. -/
def calculateMonthlyBudget (people : List Person) (expenses : List Expense) : BudgetSummary :=
  let totalAnnualSalary := people.foldl (fun total person => total + jsOrQ person.salary 0) 0
  let totalMonthlySalary := totalAnnualSalary / 12
  let totalExpenses := expenses.foldl
    (fun total expense => total + getMonthlyAmount expense.amount expense.frequency) 0
  let remainingBudget := totalMonthlySalary - totalExpenses
  let budgetRatio := if totalMonthlySalary = 0 then 0 else totalExpenses / totalMonthlySalary
  { totalExpenses := round2 totalExpenses
    remainingBudget := round2 remainingBudget
    budgetRatio := round3 budgetRatio
    isPositive := decide (0 ≤ remainingBudget) }

/-- `getPersonExpenses(personId, expenses)`: expenses assigned to that person. -/
def getPersonExpenses (personId : String) (expenses : List Expense) : List Expense :=
  expenses.filter (fun expense => expense.assignedTo == some personId)

/-- `getSharedExpenses(expenses)`: expenses assigned to the shared sentinel `"commun"`. -/
def getSharedExpenses (expenses : List Expense) : List Expense :=
  expenses.filter (fun expense => expense.assignedTo == some "commun")

/-- A per-person budget summary. -/
structure PersonBudgetSummary where
  personalExpenses : ℚ
  sharedExpenses : ℚ
  totalExpenses : ℚ
  remainingBudget : ℚ
  budgetRatio : ℚ
  isPositive : Bool
deriving DecidableEq, Repr

/-- `calculatePersonAnnualBudget(personId, people, expenses)` from
`utils/calculations.js`; returns `none` when the person id does not resolve. -/
def calculatePersonAnnualBudget (personId : String) (people : List Person)
    (expenses : List Expense) : Option PersonBudgetSummary :=
  match people.find? (fun p => p.id == personId) with
  | none => none
  | some person =>
    let personSalary := jsOrQ person.salary 0
    let personExpenses := getPersonExpenses personId expenses
    let sharedExpenses := getSharedExpenses expenses
    let personalExpensesTotal := personExpenses.foldl
      (fun total expense => total + getAnnualAmount expense.amount expense.frequency) 0
    let numberOfPeople : ℚ := people.length
    let sharedExpensesTotal := (sharedExpenses.foldl
      (fun total expense => total + getAnnualAmount expense.amount expense.frequency) 0)
      / numberOfPeople
    let totalExpenses := personalExpensesTotal + sharedExpensesTotal
    let remainingBudget := personSalary - totalExpenses
    let budgetRatio := if personSalary = 0 then 0 else totalExpenses / personSalary
    some
      { personalExpenses := round2 personalExpensesTotal
        sharedExpenses := round2 sharedExpensesTotal
        totalExpenses := round2 totalExpenses
        remainingBudget := round2 remainingBudget
        budgetRatio := round3 budgetRatio
        isPositive := decide (0 ≤ remainingBudget) }

/-- `calculatePersonMonthlyBudget(personId, people, expenses)` from
`utils/calculations.js`. -/
def calculatePersonMonthlyBudget (personId : String) (people : List Person)
    (expenses : List Expense) : Option PersonBudgetSummary :=
  match people.find? (fun p => p.id == personId) with
  | none => none
  | some person =>
    let personMonthlySalary := jsOrQ person.salary 0 / 12
    let personExpenses := getPersonExpenses personId expenses
    let sharedExpenses := getSharedExpenses expenses
    let personalExpensesTotal := personExpenses.foldl
      (fun total expense => total + getMonthlyAmount expense.amount expense.frequency) 0
    let numberOfPeople : ℚ := people.length
    let sharedExpensesTotal := (sharedExpenses.foldl
      (fun total expense => total + getMonthlyAmount expense.amount expense.frequency) 0)
      / numberOfPeople
    let totalExpenses := personalExpensesTotal + sharedExpensesTotal
    let remainingBudget := personMonthlySalary - totalExpenses
    let budgetRatio := if personMonthlySalary = 0 then 0 else totalExpenses / personMonthlySalary
    some
      { personalExpenses := round2 personalExpensesTotal
        sharedExpenses := round2 sharedExpensesTotal
        totalExpenses := round2 totalExpenses
        remainingBudget := round2 remainingBudget
        budgetRatio := round3 budgetRatio
        isPositive := decide (0 ≤ remainingBudget) }

/-- `VALIDATION_MESSAGES.REQUIRED_FIELD` from `models/constants.js`. -/
def REQUIRED_FIELD : String := "Ce champ est obligatoire"

/-- `VALIDATION_MESSAGES.POSITIVE_NUMBER` from `models/constants.js`. -/
def POSITIVE_NUMBER : String := "Le montant doit être positif"

/-- `VALIDATION_MESSAGES.INVALID_NAME` from `models/constants.js`. -/
def INVALID_NAME : String := "Le nom doit contenir au moins 2 caractères"

/-- The dedicated range error hard-coded in `validateExpenseForm`
(`utils/validators.js`). -/
def MAX_ABOVE_MIN_MESSAGE : String :=
  "Le montant maximum doit être supérieur au montant minimum"

/-- `isRequired(value)` from `utils/validators.js`, at string-valued fields:
fails exactly on `null`/`undefined` (here `none`) and the empty string. -/
def isRequiredS (value : Option String) : Bool :=
  match value with
  | some s => decide (s ≠ "")
  | none => false

/-- `isRequired(value)` at numeric fields: any number (including 0) passes;
only an absent value fails. -/
def isRequiredN (value : Option ℚ) : Bool := value.isSome

/-- `isPositiveNumber(value)` at numeric fields: `Number(undefined)` is `NaN`,
so an absent value fails; otherwise the value must be `> 0`. -/
def isPositiveNumberN (value : Option ℚ) : Bool :=
  match value with
  | some q => decide (0 < q)
  | none => false

/-- JavaScript whitespace for `trim()` (the characters that matter here). -/
def isJsSpace (c : Char) : Bool :=
  c = ' ' || c = '\t' || c = '\n' || c = '\r'

/-- JavaScript `String.prototype.trim()`: drop leading and trailing whitespace. -/
def jsTrim (s : String) : String :=
  String.mk (((s.data.dropWhile isJsSpace).reverse.dropWhile isJsSpace).reverse)

/-- `hasMinLength(value, minLength)`: only strings pass the `typeof` check,
and the trimmed length must reach `minLength`. -/
def hasMinLength (value : Option String) (minLength : ℕ) : Bool :=
  match value with
  | some s => decide (minLength ≤ (jsTrim s).length)
  | none => false

/-- A field-level validation result `{ isValid, error }`. -/
structure ValidationResult where
  isValid : Bool
  error : Option String
deriving DecidableEq, Repr

/-- `validateAmount(amount)` from `utils/validators.js`. -/
def validateAmount (amount : Option ℚ) : ValidationResult :=
  if !isRequiredN amount then { isValid := false, error := some REQUIRED_FIELD }
  else if !isPositiveNumberN amount then { isValid := false, error := some POSITIVE_NUMBER }
  else { isValid := true, error := none }

/-- `validateExpenseName(name)` from `utils/validators.js`. -/
def validateExpenseName (name : Option String) : ValidationResult :=
  if !isRequiredS name then { isValid := false, error := some REQUIRED_FIELD }
  else if !hasMinLength name 2 then { isValid := false, error := some INVALID_NAME }
  else { isValid := true, error := none }

/-- Expense form input. Fields are modelled at the types the form supplies:
text fields as optional strings, numeric fields as optional rationals
(`none` = the field is absent / `undefined`). -/
structure ExpenseFormData where
  name : Option String
  amount : Option ℚ
  minAmount : Option ℚ
  maxAmount : Option ℚ
  frequency : Option String
  category : Option String
  assignedTo : Option String
  amountMode : Option String
deriving DecidableEq, Repr

/-- The `errors` map of `validateExpenseForm`, one optional message per field. -/
structure ExpenseFormErrors where
  name : Option String
  amount : Option String
  minAmount : Option String
  maxAmount : Option String
  frequency : Option String
  category : Option String
  assignedTo : Option String
deriving DecidableEq, Repr

/-- A form-level validation result `{ isValid, errors, firstError }`. -/
structure ExpenseFormResult where
  isValid : Bool
  errors : ExpenseFormErrors
  firstError : Option String
deriving DecidableEq, Repr

/-- JavaScript truthiness of an optional number (`undefined`, `null`, `0` falsy). -/
def truthyQ (value : Option ℚ) : Bool :=
  match value with
  | some q => decide (q ≠ 0)
  | none => false

/-- First `some` of a list, mirroring the sequential
`if (!firstError) firstError = ...` assignments. -/
def firstSome (l : List (Option String)) : Option String :=
  l.foldl Option.or none

/-- `validateExpenseForm(data)` from `utils/validators.js` (the revision with
fixed/range amount modes): name, mode-dependent amount checks, the dedicated
max-above-min check that overwrites the `maxAmount` error, and presence checks
for frequency, category and assignedTo. -/
def validateExpenseForm (data : ExpenseFormData) : ExpenseFormResult :=
  let nameV := validateExpenseName data.name
  let errName := if nameV.isValid then none else nameV.error
  let errAmount : Option String :=
    if data.amountMode = some "fixed" then
      let v := validateAmount data.amount
      if v.isValid then none else v.error
    else none
  let errMinAmount : Option String :=
    if data.amountMode = some "range" then
      let v := validateAmount data.minAmount
      if v.isValid then none else v.error
    else none
  let errMaxAmountBase : Option String :=
    if data.amountMode = some "range" then
      let v := validateAmount data.maxAmount
      if v.isValid then none else v.error
    else none
  let maxBelowMin : Bool :=
    decide (data.amountMode = some "range") && truthyQ data.minAmount
      && truthyQ data.maxAmount && decide (data.maxAmount.getD 0 < data.minAmount.getD 0)
  let errMaxAmount := if maxBelowMin then some MAX_ABOVE_MIN_MESSAGE else errMaxAmountBase
  let errFrequency := if isRequiredS data.frequency then none else some REQUIRED_FIELD
  let errCategory := if isRequiredS data.category then none else some REQUIRED_FIELD
  let errAssignedTo := if isRequiredS data.assignedTo then none else some REQUIRED_FIELD
  { isValid := errName.isNone && errAmount.isNone && errMinAmount.isNone
      && errMaxAmount.isNone && errFrequency.isNone && errCategory.isNone
      && errAssignedTo.isNone
    errors :=
      { name := errName, amount := errAmount, minAmount := errMinAmount
        maxAmount := errMaxAmount, frequency := errFrequency
        category := errCategory, assignedTo := errAssignedTo }
    firstError := firstSome [errName, errAmount, errMinAmount, errMaxAmountBase,
      if maxBelowMin then some MAX_ABOVE_MIN_MESSAGE else none,
      errFrequency, errCategory, errAssignedTo] }

/-- `DEFAULT_PEOPLE` from `models/constants.js`: six default people A–F. -/
def DEFAULT_PEOPLE : List Person :=
  [ { id := "person-a", name := some "Personne A", salary := some 0, color := some "pink" }
  , { id := "person-b", name := some "Personne B", salary := some 0, color := some "blue" }
  , { id := "person-c", name := some "Personne C", salary := some 0, color := some "green" }
  , { id := "person-d", name := some "Personne D", salary := some 0, color := some "purple" }
  , { id := "person-e", name := some "Personne E", salary := some 0, color := some "orange" }
  , { id := "person-f", name := some "Personne F", salary := some 0, color := some "red" } ]

/-- A stored/raw budget state as read by `migrateState`
(`contexts/BudgetContext.jsx`): `people` may still be absent and a legacy
numeric `salary` field may be present. -/
structure StoredState where
  people : Option (List Person)
  salary : Option ℚ
  expenses : List Expense
  isLoading : Bool
deriving DecidableEq, Repr

/-- `migrateState(state)` from `contexts/BudgetContext.jsx`: if `people` is
present (any array is truthy), the state is returned unchanged; otherwise the
people collection is seeded from `DEFAULT_PEOPLE`, the first default person
receives the legacy salary when it is a positive number, and the legacy
`salary` field is cleared. -/
def migrateState (state : StoredState) : StoredState :=
  match state.people with
  | some _ => state
  | none =>
    let migratedPeople :=
      match state.salary with
      | some v =>
        if 0 < v then
          DEFAULT_PEOPLE.modifyHead (fun p => { p with salary := state.salary })
        else DEFAULT_PEOPLE
      | none => DEFAULT_PEOPLE
    { state with people := some migratedPeople, salary := none }

/-- `ALL_MONTHS` from `models/constants.js`: the twelve `2025-MM` strings. -/
def ALL_MONTHS : List String :=
  (List.range 12).map
    (fun i => "2025-" ++ (if i + 1 < 10 then "0" else "") ++ Nat.repr (i + 1))

/-- The reducer state (`initialState` shape in `contexts/BudgetContext.jsx`). -/
structure BudgetState where
  people : List Person
  expenses : List Expense
  isLoading : Bool
deriving DecidableEq, Repr

/-- `initialState` from `contexts/BudgetContext.jsx`. -/
def initialState : BudgetState := { people := [], expenses := [], isLoading := false }

/-- An `ADD_PERSON` / `UPDATE_PERSON` payload: a partial person. -/
structure PersonPayload where
  id : Option String
  name : Option String
  salary : Option ℚ
  color : Option String
deriving DecidableEq, Repr

/-- An `ADD_EXPENSE` / `UPDATE_EXPENSE` payload: a partial expense.
The expense form always submits a frequency (validated upstream), so the
payload carries one. -/
structure ExpensePayload where
  id : Option String
  name : Option String
  amount : Option ℚ
  frequency : Frequency
  category : Option String
  assignedTo : Option String
  months : Option (List String)
deriving DecidableEq, Repr

/-- The actions of `budgetReducer` (`BUDGET_ACTIONS` in `models/constants.js`). -/
inductive BudgetAction where
  | setPeople (people : List Person)
  | addPerson (payload : PersonPayload)
  | updatePerson (payload : PersonPayload)
  | deletePerson (id : String)
  | setPersonSalary (personId : String) (salary : ℚ)
  | addExpense (payload : ExpensePayload)
  | updateExpense (payload : ExpensePayload)
  | deleteExpense (id : String)
  | setLoading (loading : Bool)
  | resetBudget

/-- The spread `{ ...person, ...action.payload }` of `UPDATE_PERSON`:
fields present in the payload override the person's. -/
def mergePerson (person : Person) (payload : PersonPayload) : Person :=
  { id := payload.id.getD person.id
    name := payload.name.or person.name
    salary := payload.salary.or person.salary
    color := payload.color.or person.color }

/-- The spread `{ ...expense, ...action.payload }` of `UPDATE_EXPENSE`. -/
def mergeExpense (expense : Expense) (payload : ExpensePayload) : Expense :=
  { id := payload.id.getD expense.id
    name := payload.name.or expense.name
    amount := payload.amount.or expense.amount
    frequency := payload.frequency
    category := payload.category.or expense.category
    assignedTo := payload.assignedTo.or expense.assignedTo
    months := payload.months.getD expense.months
    createdAt := expense.createdAt }

/-- `budgetReducer(state, action)` from `contexts/BudgetContext.jsx`.
`Date.now()` is passed explicitly as `now`. -/
def budgetReducer (now : ℕ) (state : BudgetState) (action : BudgetAction) : BudgetState :=
  match action with
  | .setPeople people => { state with people := people }
  | .addPerson payload =>
    { state with people := state.people ++
        [ { id := jsOrStr payload.id ("person-" ++ Nat.repr now)
            name := payload.name
            salary := some (jsOrQ payload.salary 0)
            color := payload.color } ] }
  | .updatePerson payload =>
    { state with people := state.people.map (fun person =>
        if some person.id == payload.id then mergePerson person payload else person) }
  | .deletePerson pid =>
    { state with people := state.people.filter (fun person => person.id != pid) }
  | .setPersonSalary personId salary =>
    { state with people := state.people.map (fun person =>
        if person.id == personId then { person with salary := some salary } else person) }
  | .addExpense payload =>
    { state with expenses := state.expenses ++
        [ { id := Nat.repr now
            name := payload.name
            amount := payload.amount
            frequency := payload.frequency
            category := payload.category
            assignedTo := jsOrOptStr payload.assignedTo (state.people.head?.map Person.id)
            months := payload.months.getD ALL_MONTHS
            createdAt := now } ] }
  | .updateExpense payload =>
    { state with expenses := state.expenses.map (fun expense =>
        if some expense.id == payload.id then mergeExpense expense payload else expense) }
  | .deleteExpense eid =>
    { state with expenses := state.expenses.filter (fun expense => expense.id != eid) }
  | .setLoading loading => { state with isLoading := loading }
  | .resetBudget => initialState

/-- Spec-side total income: the sum of the people's salaries. -/
def salaryTotal (people : List Person) : ℚ :=
  (people.map (fun p => jsOrQ p.salary 0)).sum

/-- Spec-side annual expense total: the sum of annualized amounts. -/
def annualExpensesTotal (expenses : List Expense) : ℚ :=
  (expenses.map (fun e => getAnnualAmount e.amount e.frequency)).sum

/-- Spec-side monthly expense total: the sum of monthly-normalized amounts. -/
def monthlyExpensesTotal (expenses : List Expense) : ℚ :=
  (expenses.map (fun e => getMonthlyAmount e.amount e.frequency)).sum

/-- Spec-side annual total of the expenses assigned to one person. -/
def personalAnnualTotal (personId : String) (expenses : List Expense) : ℚ :=
  ((getPersonExpenses personId expenses).map
    (fun e => getAnnualAmount e.amount e.frequency)).sum

/-- Spec-side annual total of the shared expenses. -/
def sharedAnnualTotal (expenses : List Expense) : ℚ :=
  ((getSharedExpenses expenses).map
    (fun e => getAnnualAmount e.amount e.frequency)).sum

theorem foldl_add_map {α : Type} (f : α → ℚ) :
    ∀ (l : List α) (init : ℚ),
      l.foldl (fun t x => t + f x) init = init + (l.map f).sum := by
  intro l
  induction l with
  | nil => intro init; simp
  | cons a t ih => intro init; simp [ih, add_assoc]

/-- C6: for every positive amount and every pair of frequencies, converting
from `A` to `B` and back returns the original amount exactly (in exact
rational arithmetic). -/
theorem convertAmount_roundtrip (a : ℚ) (ha : 0 < a) (A B : Frequency) :
    convertAmount (some (convertAmount (some a) A B)) B A = a := by
  have hA : 0 < FREQUENCY_MULTIPLIERS A := by
    cases A <;> norm_num [FREQUENCY_MULTIPLIERS]
  have hB : 0 < FREQUENCY_MULTIPLIERS B := by
    cases B <;> norm_num [FREQUENCY_MULTIPLIERS]
  have hinner : convertAmount (some a) A B =
      a * FREQUENCY_MULTIPLIERS A / FREQUENCY_MULTIPLIERS B := by
    simp [convertAmount, ha.not_le]
  have hpos : 0 < a * FREQUENCY_MULTIPLIERS A / FREQUENCY_MULTIPLIERS B := by
    positivity
  rw [hinner]
  simp only [convertAmount, hpos.not_le, if_false]
  field_simp

/-- Witness for C6 at `amount = 100`, `A = weekly`, `B = monthly`. -/
theorem convertAmount_roundtrip_witness :
    (0 : ℚ) < 100 ∧
      convertAmount (some (convertAmount (some 100) .weekly .monthly)) .monthly .weekly = 100 :=
  ⟨by norm_num, convertAmount_roundtrip 100 (by norm_num) .weekly .monthly⟩

/-- C9: the migration is idempotent and does not re-trigger once the `people`
field exists. -/
theorem migrateState_idem :
    (∀ s : StoredState, migrateState (migrateState s) = migrateState s)
    ∧ (∀ s : StoredState, s.people.isSome → migrateState s = s) := by
  constructor
  · intro s
    obtain ⟨p, sal, ex, ld⟩ := s
    cases p with
    | some l => rfl
    | none => rfl
  · intro s hs
    obtain ⟨p, sal, ex, ld⟩ := s
    cases p with
    | some l => rfl
    | none => simp at hs

/-- Witness for C9 at a state whose `people` field is present. -/
theorem migrateState_idem_witness :
    migrateState { people := some [], salary := none, expenses := [], isLoading := false } =
      { people := some [], salary := none, expenses := [], isLoading := false } :=
  migrateState_idem.2 _ rfl

/-- A legacy state: no `people` collection, a legacy numeric salary. -/
def c3LegacyState : StoredState :=
  { people := none, salary := some 50000, expenses := [], isLoading := false }

/-- C3 counterexample: on a legacy state the migration produces a people
collection of six persons, not exactly one. -/
theorem migrateState_legacy_six_people :
    ((migrateState c3LegacyState).people.map List.length) = some 6 := by decide

/-- C3 amended: on a legacy state carrying a positive numeric salary, the
migration produces exactly the six-person `DEFAULT_PEOPLE` collection with the
first person (`person-a`) seeded with the legacy salary, removes the legacy
salary field, and leaves the other fields unchanged. -/
theorem migrateState_legacy_amended :
    ∀ (s : StoredState) (v : ℚ), s.people = none → s.salary = some v → 0 < v →
      (migrateState s).people = some
        [ { id := "person-a", name := some "Personne A", salary := some v,
            color := some "pink" }
        , { id := "person-b", name := some "Personne B", salary := some 0,
            color := some "blue" }
        , { id := "person-c", name := some "Personne C", salary := some 0,
            color := some "green" }
        , { id := "person-d", name := some "Personne D", salary := some 0,
            color := some "purple" }
        , { id := "person-e", name := some "Personne E", salary := some 0,
            color := some "orange" }
        , { id := "person-f", name := some "Personne F", salary := some 0,
            color := some "red" } ]
      ∧ (migrateState s).salary = none
      ∧ (migrateState s).expenses = s.expenses
      ∧ (migrateState s).isLoading = s.isLoading := by
  intro s v hp hs hv
  obtain ⟨p, sal, ex, ld⟩ := s
  replace hp : p = none := hp
  replace hs : sal = some v := hs
  subst hp
  subst hs
  have hmig : migrateState ⟨none, some v, ex, ld⟩ =
      { people := some (DEFAULT_PEOPLE.modifyHead (fun p => { p with salary := some v }))
        salary := none, expenses := ex, isLoading := ld } := by
    simp [migrateState, hv]
  rw [hmig]
  exact ⟨rfl, rfl, rfl, rfl⟩

/-- Witness for the amended C3 at the concrete legacy state. -/
theorem migrateState_legacy_amended_witness :
    (migrateState c3LegacyState).people = some
      [ { id := "person-a", name := some "Personne A", salary := some 50000,
          color := some "pink" }
      , { id := "person-b", name := some "Personne B", salary := some 0,
          color := some "blue" }
      , { id := "person-c", name := some "Personne C", salary := some 0,
          color := some "green" }
      , { id := "person-d", name := some "Personne D", salary := some 0,
          color := some "purple" }
      , { id := "person-e", name := some "Personne E", salary := some 0,
          color := some "orange" }
      , { id := "person-f", name := some "Personne F", salary := some 0,
          color := some "red" } ]
    ∧ (migrateState c3LegacyState).salary = none
    ∧ (migrateState c3LegacyState).expenses = c3LegacyState.expenses
    ∧ (migrateState c3LegacyState).isLoading = c3LegacyState.isLoading :=
  migrateState_legacy_amended c3LegacyState 50000 rfl rfl (by norm_num)

/-- An `ADD_PERSON` payload supplying no id. -/
def emptyPersonPayload : PersonPayload :=
  { id := none, name := none, salary := none, color := none }

/-- C4: two `ADD_PERSON` dispatches in the same millisecond (same `Date.now()`
value, here 1000) both receive the raw-timestamp id `person-1000`, so the
resulting people ids are NOT pairwise distinct. -/
theorem addPerson_same_millisecond_duplicate :
    ((budgetReducer 1000 (budgetReducer 1000 initialState (.addPerson emptyPersonPayload))
        (.addPerson emptyPersonPayload)).people.map Person.id)
      = ["person-1000", "person-1000"]
    ∧ ¬ ((budgetReducer 1000 (budgetReducer 1000 initialState (.addPerson emptyPersonPayload))
        (.addPerson emptyPersonPayload)).people.map Person.id).Nodup := by
  constructor
  · rfl
  · decide

/-- C10: frame property of the reducer — expense actions leave `people` and
`isLoading` unchanged, person actions leave `expenses` and `isLoading`
unchanged, and `SET_LOADING` leaves `people` and `expenses` unchanged. -/
theorem budgetReducer_frame :
    ∀ (now : ℕ) (s : BudgetState),
      (∀ payload : ExpensePayload,
          (budgetReducer now s (.addExpense payload)).people = s.people
        ∧ (budgetReducer now s (.addExpense payload)).isLoading = s.isLoading
        ∧ (budgetReducer now s (.updateExpense payload)).people = s.people
        ∧ (budgetReducer now s (.updateExpense payload)).isLoading = s.isLoading)
      ∧ (∀ eid : String,
          (budgetReducer now s (.deleteExpense eid)).people = s.people
        ∧ (budgetReducer now s (.deleteExpense eid)).isLoading = s.isLoading)
      ∧ (∀ people : List Person,
          (budgetReducer now s (.setPeople people)).expenses = s.expenses
        ∧ (budgetReducer now s (.setPeople people)).isLoading = s.isLoading)
      ∧ (∀ payload : PersonPayload,
          (budgetReducer now s (.addPerson payload)).expenses = s.expenses
        ∧ (budgetReducer now s (.addPerson payload)).isLoading = s.isLoading
        ∧ (budgetReducer now s (.updatePerson payload)).expenses = s.expenses
        ∧ (budgetReducer now s (.updatePerson payload)).isLoading = s.isLoading)
      ∧ (∀ pid : String,
          (budgetReducer now s (.deletePerson pid)).expenses = s.expenses
        ∧ (budgetReducer now s (.deletePerson pid)).isLoading = s.isLoading)
      ∧ (∀ (pid : String) (sal : ℚ),
          (budgetReducer now s (.setPersonSalary pid sal)).expenses = s.expenses
        ∧ (budgetReducer now s (.setPersonSalary pid sal)).isLoading = s.isLoading)
      ∧ (∀ b : Bool,
          (budgetReducer now s (.setLoading b)).people = s.people
        ∧ (budgetReducer now s (.setLoading b)).expenses = s.expenses) := by
  intro now s
  exact ⟨fun _ => ⟨rfl, rfl, rfl, rfl⟩, fun _ => ⟨rfl, rfl⟩, fun _ => ⟨rfl, rfl⟩,
    fun _ => ⟨rfl, rfl, rfl, rfl⟩, fun _ => ⟨rfl, rfl⟩, fun _ _ => ⟨rfl, rfl⟩,
    fun _ => ⟨rfl, rfl⟩⟩

theorem calculateAnnualBudget_eq (people : List Person) (expenses : List Expense) :
    calculateAnnualBudget people expenses =
      { totalExpenses := round2 (annualExpensesTotal expenses)
        remainingBudget := round2 (salaryTotal people - annualExpensesTotal expenses)
        budgetRatio := round3 (if salaryTotal people = 0 then 0
          else annualExpensesTotal expenses / salaryTotal people)
        isPositive := decide (0 ≤ salaryTotal people - annualExpensesTotal expenses) } := by
  simp only [calculateAnnualBudget, foldl_add_map, zero_add, salaryTotal,
    annualExpensesTotal]

theorem calculateMonthlyBudget_eq (people : List Person) (expenses : List Expense) :
    calculateMonthlyBudget people expenses =
      { totalExpenses := round2 (monthlyExpensesTotal expenses)
        remainingBudget := round2 (salaryTotal people / 12 - monthlyExpensesTotal expenses)
        budgetRatio := round3 (if salaryTotal people / 12 = 0 then 0
          else monthlyExpensesTotal expenses / (salaryTotal people / 12))
        isPositive := decide (0 ≤ salaryTotal people / 12 - monthlyExpensesTotal expenses) } := by
  simp only [calculateMonthlyBudget, foldl_add_map, zero_add, salaryTotal,
    monthlyExpensesTotal]

theorem calculatePersonAnnualBudget_eq (personId : String) (people : List Person)
    (expenses : List Expense) (person : Person)
    (hfind : people.find? (fun p => p.id == personId) = some person) :
    calculatePersonAnnualBudget personId people expenses = some
      { personalExpenses := round2 (personalAnnualTotal personId expenses)
        sharedExpenses := round2 (sharedAnnualTotal expenses / people.length)
        totalExpenses := round2 (personalAnnualTotal personId expenses
          + sharedAnnualTotal expenses / people.length)
        remainingBudget := round2 (jsOrQ person.salary 0
          - (personalAnnualTotal personId expenses
             + sharedAnnualTotal expenses / people.length))
        budgetRatio := round3 (if jsOrQ person.salary 0 = 0 then 0
          else (personalAnnualTotal personId expenses
            + sharedAnnualTotal expenses / people.length) / jsOrQ person.salary 0)
        isPositive := decide (0 ≤ jsOrQ person.salary 0
          - (personalAnnualTotal personId expenses
             + sharedAnnualTotal expenses / people.length)) } := by
  simp only [calculatePersonAnnualBudget, hfind, foldl_add_map, zero_add,
    personalAnnualTotal, sharedAnnualTotal]

/-- The people of the C1 acceptance example. -/
def c1People : List Person :=
  [ { id := "p1", name := none, salary := some 30000, color := none }
  , { id := "p2", name := none, salary := some 25000, color := none } ]

/-- The expense of the C1 acceptance example: 100 monthly. -/
def c1Expense : Expense :=
  { id := "e1", name := none, amount := some 100, frequency := .monthly
    category := none, assignedTo := none, months := ALL_MONTHS, createdAt := 0 }

/-- C1: `calculateAnnualBudget` returns the rounded annualized expense total,
the rounded remaining budget, the rounded ratio (0 when total salary is 0) and
`isPositive = (remainingBudget >= 0)` (computed on the pre-rounding value, as
in the source); each expense counts once regardless of its `months` set; and
on the acceptance example it returns 1200 / 53800. -/
theorem calculateAnnualBudget_correct :
    (∀ (people : List Person) (expenses : List Expense),
      calculateAnnualBudget people expenses =
        { totalExpenses := round2 (annualExpensesTotal expenses)
          remainingBudget := round2 (salaryTotal people - annualExpensesTotal expenses)
          budgetRatio := round3 (if salaryTotal people = 0 then 0
            else annualExpensesTotal expenses / salaryTotal people)
          isPositive := decide (0 ≤ salaryTotal people - annualExpensesTotal expenses) })
    ∧ (∀ (people : List Person) (e : Expense) (rest : List Expense) (m : List String),
        calculateAnnualBudget people ({ e with months := m } :: rest) =
          calculateAnnualBudget people (e :: rest))
    ∧ (calculateAnnualBudget c1People [c1Expense]).totalExpenses = 1200
    ∧ (calculateAnnualBudget c1People [c1Expense]).remainingBudget = 53800 := by
  refine ⟨calculateAnnualBudget_eq, ?_, ?_, ?_⟩
  · intro people e rest m
    rfl
  · rw [calculateAnnualBudget_eq]
    show round2 (annualExpensesTotal [c1Expense]) = 1200
    norm_num [annualExpensesTotal, getAnnualAmount, convertAmount,
      FREQUENCY_MULTIPLIERS, round2, jsRound, c1Expense]
  · rw [calculateAnnualBudget_eq]
    show round2 (salaryTotal c1People - annualExpensesTotal [c1Expense]) = 53800
    norm_num [annualExpensesTotal, salaryTotal, getAnnualAmount, convertAmount,
      FREQUENCY_MULTIPLIERS, round2, jsRound, c1Expense, c1People, jsOrQ]

/-- Two people for the C2 shared-split example. -/
def c2TwoPeople : List Person :=
  [ { id := "person-a", name := none, salary := some 30000, color := none }
  , { id := "person-b", name := none, salary := some 25000, color := none } ]

/-- Three people for the C2 shared-split example. -/
def c2ThreePeople : List Person :=
  c2TwoPeople ++ [ { id := "person-c", name := none, salary := some 20000, color := none } ]

/-- A shared expense of annual equivalent 2400 (200 monthly). -/
def c2SharedExpense : Expense :=
  { id := "e-shared", name := none, amount := some 200, frequency := .monthly
    category := none, assignedTo := some "commun", months := ALL_MONTHS, createdAt := 0 }

/-- C2: `calculatePersonAnnualBudget` returns `none` when the person id does
not resolve; otherwise its `sharedExpenses` is the shared annual total split
over the current number of people, its `personalExpenses` is the annual total
of the expenses assigned to the person, and its `totalExpenses` their sum
(each rounded at the function boundary); on one shared expense of annual
equivalent 2400 the share is 1200 with 2 people and 800 with 3. -/
theorem calculatePersonAnnualBudget_spec :
    (∀ (personId : String) (people : List Person) (expenses : List Expense),
        people.find? (fun p => p.id == personId) = none →
        calculatePersonAnnualBudget personId people expenses = none)
    ∧ (∀ (personId : String) (people : List Person) (expenses : List Expense)
          (person : Person),
        people.find? (fun p => p.id == personId) = some person →
        ∃ s, calculatePersonAnnualBudget personId people expenses = some s
          ∧ s.sharedExpenses = round2 (sharedAnnualTotal expenses / people.length)
          ∧ s.personalExpenses = round2 (personalAnnualTotal personId expenses)
          ∧ s.totalExpenses = round2 (personalAnnualTotal personId expenses
              + sharedAnnualTotal expenses / people.length))
    ∧ ((calculatePersonAnnualBudget "person-a" c2TwoPeople [c2SharedExpense]).map
        PersonBudgetSummary.sharedExpenses = some 1200)
    ∧ ((calculatePersonAnnualBudget "person-a" c2ThreePeople [c2SharedExpense]).map
        PersonBudgetSummary.sharedExpenses = some 800) := by
  have hshared : sharedAnnualTotal [c2SharedExpense] = 2400 := by
    have h1 : getSharedExpenses [c2SharedExpense] = [c2SharedExpense] := rfl
    rw [sharedAnnualTotal, h1]
    norm_num [c2SharedExpense, getAnnualAmount, convertAmount, FREQUENCY_MULTIPLIERS]
  refine ⟨?_, ?_, ?_, ?_⟩
  · intro pid people expenses hfind
    simp [calculatePersonAnnualBudget, hfind]
  · intro pid people expenses person hfind
    exact ⟨_, calculatePersonAnnualBudget_eq pid people expenses person hfind,
      rfl, rfl, rfl⟩
  · rw [calculatePersonAnnualBudget_eq "person-a" c2TwoPeople [c2SharedExpense]
      { id := "person-a", name := none, salary := some 30000, color := none } rfl]
    simp only [Option.map_some']
    rw [hshared]
    norm_num [c2TwoPeople, round2, jsRound]
  · rw [calculatePersonAnnualBudget_eq "person-a" c2ThreePeople [c2SharedExpense]
      { id := "person-a", name := none, salary := some 30000, color := none } rfl]
    simp only [Option.map_some']
    rw [hshared]
    norm_num [c2ThreePeople, c2TwoPeople, round2, jsRound]

/-- Witness for C2: the null case at an unresolvable id, and the summary case
at the two-people example, with the hypotheses discharged concretely. -/
theorem calculatePersonAnnualBudget_spec_witness :
    calculatePersonAnnualBudget "ghost" [] [] = none
    ∧ ∃ s, calculatePersonAnnualBudget "person-a" c2TwoPeople [c2SharedExpense] = some s
        ∧ s.sharedExpenses = round2 (sharedAnnualTotal [c2SharedExpense] / c2TwoPeople.length)
        ∧ s.personalExpenses = round2 (personalAnnualTotal "person-a" [c2SharedExpense])
        ∧ s.totalExpenses = round2 (personalAnnualTotal "person-a" [c2SharedExpense]
            + sharedAnnualTotal [c2SharedExpense] / c2TwoPeople.length) :=
  ⟨calculatePersonAnnualBudget_spec.1 "ghost" [] [] rfl,
   calculatePersonAnnualBudget_spec.2.1 "person-a" c2TwoPeople [c2SharedExpense]
     { id := "person-a", name := none, salary := some 30000, color := none } rfl⟩

theorem convertAmount_nonneg (a : Option ℚ) (f t : Frequency) :
    0 ≤ convertAmount a f t := by
  cases a with
  | none => simp [convertAmount]
  | some q =>
    by_cases h : q ≤ 0
    · simp [convertAmount, h]
    · push_neg at h
      have hf : 0 < FREQUENCY_MULTIPLIERS f := by
        cases f <;> norm_num [FREQUENCY_MULTIPLIERS]
      have ht : 0 < FREQUENCY_MULTIPLIERS t := by
        cases t <;> norm_num [FREQUENCY_MULTIPLIERS]
      simp only [convertAmount, if_neg (not_le.mpr h)]
      positivity

theorem annualExpensesTotal_nonneg (expenses : List Expense) :
    0 ≤ annualExpensesTotal expenses := by
  apply List.sum_nonneg
  intro x hx
  simp only [List.mem_map] at hx
  obtain ⟨e, _, rfl⟩ := hx
  exact convertAmount_nonneg _ _ _

theorem monthlyExpensesTotal_nonneg (expenses : List Expense) :
    0 ≤ monthlyExpensesTotal expenses := by
  apply List.sum_nonneg
  intro x hx
  simp only [List.mem_map] at hx
  obtain ⟨e, _, rfl⟩ := hx
  exact convertAmount_nonneg _ _ _

theorem salaryTotal_nonneg (people : List Person)
    (h : ∀ p ∈ people, 0 ≤ jsOrQ p.salary 0) : 0 ≤ salaryTotal people := by
  apply List.sum_nonneg
  intro x hx
  simp only [List.mem_map] at hx
  obtain ⟨p, hp, rfl⟩ := hx
  exact h p hp

theorem jsRound_nonneg {x : ℚ} (h : 0 ≤ x) : (0 : ℤ) ≤ jsRound x := by
  rw [jsRound]
  apply Int.le_floor.mpr
  push_cast
  linarith

theorem round3_nonneg {x : ℚ} (h : 0 ≤ x) : 0 ≤ round3 x := by
  rw [round3]
  apply div_nonneg _ (by norm_num)
  exact_mod_cast jsRound_nonneg (by positivity)

theorem round3_zero : round3 0 = 0 := by norm_num [round3, jsRound]

/-- C5: with non-negative salaries and valid frequencies, the rounded
`budgetRatio` of both household summaries is non-negative, is 0 whenever total
income is 0, and `isPositive` is exactly `remainingBudget >= 0` (on the
pre-rounding remaining budget, as computed in the source). -/
theorem budgetRatio_invariant :
    ∀ (people : List Person) (expenses : List Expense),
      (∀ p ∈ people, 0 ≤ jsOrQ p.salary 0) →
      (0 ≤ (calculateAnnualBudget people expenses).budgetRatio
      ∧ (salaryTotal people = 0 → (calculateAnnualBudget people expenses).budgetRatio = 0)
      ∧ (calculateAnnualBudget people expenses).isPositive
          = decide (0 ≤ salaryTotal people - annualExpensesTotal expenses)
      ∧ 0 ≤ (calculateMonthlyBudget people expenses).budgetRatio
      ∧ (salaryTotal people = 0 → (calculateMonthlyBudget people expenses).budgetRatio = 0)
      ∧ (calculateMonthlyBudget people expenses).isPositive
          = decide (0 ≤ salaryTotal people / 12 - monthlyExpensesTotal expenses)) := by
  intro people expenses hsal
  have hT := salaryTotal_nonneg people hsal
  have hS := annualExpensesTotal_nonneg expenses
  have hM := monthlyExpensesTotal_nonneg expenses
  rw [calculateAnnualBudget_eq, calculateMonthlyBudget_eq]
  refine ⟨?_, ?_, rfl, ?_, ?_, rfl⟩
  · apply round3_nonneg
    split
    · exact le_refl 0
    · exact div_nonneg hS hT
  · intro h0
    rw [h0]
    simp [round3_zero]
  · apply round3_nonneg
    split
    · exact le_refl 0
    · exact div_nonneg hM (div_nonneg hT (by norm_num))
  · intro h0
    rw [h0]
    norm_num [round3_zero]

/-- A one-person list for the C5 witness. -/
def c5People : List Person :=
  [ { id := "p", name := none, salary := some 1000, color := none } ]

/-- Witness for C5 at one person with salary 1000 and the 100-monthly expense. -/
theorem budgetRatio_invariant_witness :
    0 ≤ (calculateAnnualBudget c5People [c1Expense]).budgetRatio
    ∧ (salaryTotal c5People = 0 →
        (calculateAnnualBudget c5People [c1Expense]).budgetRatio = 0)
    ∧ (calculateAnnualBudget c5People [c1Expense]).isPositive
        = decide (0 ≤ salaryTotal c5People - annualExpensesTotal [c1Expense])
    ∧ 0 ≤ (calculateMonthlyBudget c5People [c1Expense]).budgetRatio
    ∧ (salaryTotal c5People = 0 →
        (calculateMonthlyBudget c5People [c1Expense]).budgetRatio = 0)
    ∧ (calculateMonthlyBudget c5People [c1Expense]).isPositive
        = decide (0 ≤ salaryTotal c5People / 12 - monthlyExpensesTotal [c1Expense]) :=
  budgetRatio_invariant c5People [c1Expense] (by
    intro p hp
    simp [c5People] at hp
    subst hp
    norm_num [jsOrQ])

/-- An expense form whose frequency is the non-enum string `"daily"` and whose
other fields are valid (fixed mode, positive amount). -/
def c7BadFrequencyForm : ExpenseFormData :=
  { name := some "Courses", amount := some 100, minAmount := none, maxAmount := none
    frequency := some "daily", category := some "food", assignedTo := some "person-a"
    amountMode := some "fixed" }

/-- C7 counterexample: a non-empty frequency outside the enum
(`"daily"`) is accepted — the form is reported valid with no frequency
error, contradicting the claim. -/
theorem validateExpenseForm_nonenum_frequency_accepted :
    (validateExpenseForm c7BadFrequencyForm).isValid = true
    ∧ (validateExpenseForm c7BadFrequencyForm).errors.frequency = none
    ∧ ¬("daily" = "weekly" ∨ "daily" = "monthly" ∨ "daily" = "annual") := by
  refine ⟨by decide, by decide, by decide⟩

/-- C7 amended: `validateExpenseForm` checks frequency only for presence — any
non-empty frequency string produces no frequency error, an absent frequency
produces the required-field error, and a fixed-mode form with valid other
fields and ANY non-empty frequency string (enum member or not) is reported
valid. -/
theorem validateExpenseForm_frequency_presence_only :
    (∀ (d : ExpenseFormData) (s : String), d.frequency = some s → s ≠ "" →
        (validateExpenseForm d).errors.frequency = none)
    ∧ (∀ d : ExpenseFormData, d.frequency = none →
        (validateExpenseForm d).errors.frequency = some REQUIRED_FIELD)
    ∧ (∀ (nm : String) (a : ℚ) (s cat asg : String),
        2 ≤ (jsTrim nm).length → 0 < a → s ≠ "" → cat ≠ "" → asg ≠ "" →
        (validateExpenseForm
          { name := some nm, amount := some a, minAmount := none, maxAmount := none
            frequency := some s, category := some cat, assignedTo := some asg
            amountMode := some "fixed" }).isValid = true) := by
  refine ⟨?_, ?_, ?_⟩
  · intro d s hd hs
    simp [validateExpenseForm, isRequiredS, hd, hs]
  · intro d hd
    simp [validateExpenseForm, isRequiredS, hd]
  · intro nm a s cat asg hnm2 ha hs hcat hasg
    have hnm : nm ≠ "" := by
      intro h
      rw [h] at hnm2
      exact absurd hnm2 (by decide)
    have h1 : validateExpenseName (some nm) = { isValid := true, error := none } := by
      simp [validateExpenseName, isRequiredS, hasMinLength, hnm, hnm2]
    have h2 : validateAmount (some a) = { isValid := true, error := none } := by
      simp [validateAmount, isRequiredN, isPositiveNumberN, ha]
    simp [validateExpenseForm, h1, h2, isRequiredS, hs, hcat, hasg, truthyQ]

/-- Witness for the amended C7 at the `"daily"`-frequency form. -/
theorem validateExpenseForm_frequency_presence_only_witness :
    (validateExpenseForm c7BadFrequencyForm).isValid = true :=
  validateExpenseForm_frequency_presence_only.2.2 "Courses" 100 "daily" "food" "person-a"
    (by decide) (by norm_num) (by decide) (by decide) (by decide)

/-- C8: in range mode with both bounds positive, `minAmount > maxAmount`
yields `isValid = false` with the dedicated max-above-min error on the
`maxAmount` field, and `minAmount <= maxAmount` yields no `maxAmount` error. -/
theorem validateExpenseForm_range_minmax :
    ∀ (d : ExpenseFormData) (m M : ℚ),
      d.amountMode = some "range" → d.minAmount = some m → d.maxAmount = some M →
      0 < m → 0 < M →
      ((M < m →
          (validateExpenseForm d).isValid = false
          ∧ (validateExpenseForm d).errors.maxAmount = some MAX_ABOVE_MIN_MESSAGE)
        ∧ (m ≤ M → (validateExpenseForm d).errors.maxAmount = none)) := by
  intro d m M hmode hmin hmax hm hM
  constructor
  · intro hlt
    constructor
    · simp [validateExpenseForm, hmode, hmin, hmax, validateAmount, isRequiredN,
        isPositiveNumberN, truthyQ, hm, hM, hm.ne', hM.ne', hlt]
    · simp [validateExpenseForm, hmode, hmin, hmax, validateAmount, isRequiredN,
        isPositiveNumberN, truthyQ, hm, hM, hm.ne', hM.ne', hlt]
  · intro hle
    simp [validateExpenseForm, hmode, hmin, hmax, validateAmount, isRequiredN,
      isPositiveNumberN, truthyQ, hm, hM, hm.ne', hM.ne', not_lt.mpr hle]

/-- The C8 example form: range mode with `minAmount = 120 > maxAmount = 80`. -/
def c8RangeForm : ExpenseFormData :=
  { name := some "Ok", amount := none, minAmount := some 120, maxAmount := some 80
    frequency := some "monthly", category := some "food", assignedTo := some "person-a"
    amountMode := some "range" }

/-- Witness for C8 at the `minAmount = 120`, `maxAmount = 80` form. -/
theorem validateExpenseForm_range_minmax_witness :
    (validateExpenseForm c8RangeForm).isValid = false
    ∧ (validateExpenseForm c8RangeForm).errors.maxAmount = some MAX_ABOVE_MIN_MESSAGE :=
  (validateExpenseForm_range_minmax c8RangeForm 120 80 rfl rfl rfl
    (by norm_num) (by norm_num)).1 (by norm_num)
